import Mathlib

/-
Verification of the MagicHome LED client protocol codec and session layer
(`src/magic_home.rs`), shallowly embedded in Lean 4.

Bytes (Rust `u8`) are modelled as `Nat`, with wraparound made explicit by
`% 256` where the source uses wrapping arithmetic.  The TCP stream is
modelled by making `send_to_device` return the list of frames written (in
order), the number of bytes read, and the returned value, as a function of
the 14-byte response buffer the device would supply to a read.
-/

/-- `type Control = (u8, u8, u8)`. -/
abbrev Control := Nat × Nat × Nat

/-- `type Function = (u8, u8)`. -/
abbrev LedFunction := Nat × Nat

/-- `type Rgb = (u8, u8, u8)`. -/
abbrev Rgb := Nat × Nat × Nat

/-- `const STATUS: Control = (0x81, 0x8a, 0x8b);` -/
def STATUS : Control := (0x81, 0x8a, 0x8b)

/-- `const ON: Control = (0x71, 0x23, 0x0f);` -/
def ON : Control := (0x71, 0x23, 0x0f)

/-- `const OFF: Control = (0x71, 0x24, 0x0f);` -/
def OFF : Control := (0x71, 0x24, 0x0f)

/-- `const CHAOS: Function = (49, 5);` -/
def CHAOS : LedFunction := (49, 5)

/-- `const AMBIENT: Function = (37, 50);` -/
def AMBIENT : LedFunction := (37, 50)

/-- `const RAINBOW: Function = (37, 1);` -/
def RAINBOW : LedFunction := (37, 1)

/-- `const RED: Rgb = (255, 0, 0);` -/
def RED : Rgb := (255, 0, 0)

/-- `const GREEN: Rgb = (0, 255, 0);` -/
def GREEN : Rgb := (0, 255, 0)

/-- `const BLUE: Rgb = (0, 0, 255);` -/
def BLUE : Rgb := (0, 0, 255)

/-- `const LIME: Rgb = (255, 255, 0);` -/
def LIME : Rgb := (255, 255, 0)

/-- `const YELLOW: Rgb = (255, 110, 0);` -/
def YELLOW : Rgb := (255, 110, 0)

/-- `const PINK: Rgb = (255, 0, 170);` -/
def PINK : Rgb := (255, 0, 170)

/-- `const CYAN: Rgb = (0, 255, 255);` -/
def CYAN : Rgb := (0, 255, 255)

/-- `const PURPLE: Rgb = (170, 0, 255);` -/
def PURPLE : Rgb := (170, 0, 255)

/-- `const ORANGE: Rgb = (255, 24, 0);` -/
def ORANGE : Rgb := (255, 24, 0)

/-- `const WHITE: Rgb = (255, 255, 255);` -/
def WHITE : Rgb := (255, 255, 255)

/-- `enum Message { Control(Control), Function(Function), Color(Rgb) }`. -/
inductive Message where
  | Control (c : Control)
  | Function (f : LedFunction)
  | Color (rgb : Rgb)
deriving DecidableEq

/-- `pub enum Actions`: the CLI action vocabulary dispatched by
`perform_action`. -/
inductive Actions where
  | Status | On | Off | Chaos | Rainbow | Ambient
  | Red | Green | Blue | Yellow | Orange | Lime | Purple | Pink | Cyan | White
deriving DecidableEq

/-- `pub struct Status`: decoded device status.  `mode` is the
`&'static str` the source stores. -/
structure Status where
  power : Bool
  color : Rgb
  mode : String
  speed : Option Nat
deriving DecidableEq

/-- Rust `u8::wrapping_add`: addition modulo 256. -/
def wrapping_add (a b : Nat) : Nat := (a + b) % 256

/-- Rust `u8` subtraction `a - b` with two's-complement wraparound
(release-build semantics): `(a + 256 - b) mod 256` for byte operands. -/
def u8_sub (a b : Nat) : Nat := (a % 256 + 256 - b % 256) % 256

/-- `MagicHomeAPI::calc_checksum`: starting from 0, fold
`checksum = num.wrapping_add(checksum)` over the bytes. -/
def calc_checksum (bytes : List Nat) : Nat :=
  bytes.foldl (fun checksum num => wrapping_add num checksum) 0

/-- `impl From<&[u8; 14]> for Status`.  The source destructures the buffer as
`[_, _, power, mode, _, speed, r, b, g, ..]`, so `power = buffer[2]`,
`mode = buffer[3]`, `speed = buffer[5]`, `r = buffer[6]`, `b = buffer[7]`,
`g = buffer[8]`.  The Rust `match mode` on the literals 97, 49, 37 with a
wildcard arm is rendered as the corresponding if-chain; `100 - speed` is
`u8` subtraction. -/
def Status.fromBuffer (buffer : Fin 14 → Nat) : Status :=
  let power := buffer 2
  let mode := buffer 3
  let speed := buffer 5
  let r := buffer 6
  let b := buffer 7
  let g := buffer 8
  let color := (r, g, b)
  let ms : String × Option Nat :=
    if mode = 97 then ("static", none)
    else if mode = 49 then ("strobe", some (u8_sub 100 speed))
    else if mode = 37 then ("cycle", some (u8_sub 100 speed))
    else ("unknown", none)
  { power := power == 35, color := color, mode := ms.1, speed := ms.2 }

/-- The byte vector `send_to_device` builds for a message, before the
checksum byte is pushed:
`Color((r,g,b))` → `vec![0x31, r, b, g, 0xff, 0x00, 0x0f]`,
`Function((preset,speed))` → `vec![0x61, preset, speed, 0x0f]`,
`Control((b1,b2,b3))` → `vec![b1, b2, b3]`. -/
def message_bytes : Message → List Nat
  | .Color (r, g, b) => [0x31, r, b, g, 0xff, 0x00, 0x0f]
  | .Function (preset, speed) => [0x61, preset, speed, 0x0f]
  | .Control (b1, b2, b3) => [b1, b2, b3]

/-- The complete frame written for a message: the built bytes with the
checksum pushed at the end. -/
def frame (m : Message) : List Nat :=
  message_bytes m ++ [calc_checksum (message_bytes m)]

/-- The `Message::Control` branch of `send_to_device`: write the frame; then,
per `if let Message::Control(STATUS) = message`, read the 14-byte buffer and
decode it exactly when the control triple is `STATUS`.  Result: frames
written, bytes read, returned value. -/
def send_control (c : Control) (buffer : Fin 14 → Nat) :
    List (List Nat) × Nat × Option Status :=
  if c = STATUS then ([frame (.Control c)], 14, some (Status.fromBuffer buffer))
  else ([frame (.Control c)], 0, none)

/-- `MagicHomeAPI::send_to_device`, as a pure function of the message and of
the 14-byte response buffer the device would supply to a read.  Returns the
list of frames written in order, the number of bytes read, and the value
returned to the caller.  The `Function` arm performs the source's recursive
`self.send_to_device(Message::Control(ON))` first (that call is a control
send, modelled by `send_control`); the outer message is then not
`Control(STATUS)`, so nothing further is read and `None` is returned. -/
def send_to_device (message : Message) (buffer : Fin 14 → Nat) :
    List (List Nat) × Nat × Option Status :=
  match message with
  | .Control c => send_control c buffer
  | .Function f =>
      let prior := send_control ON buffer
      (prior.1 ++ [frame (.Function f)], prior.2.1, none)
  | .Color rgb => ([frame (.Color rgb)], 0, none)

/-- The `match action` table of `MagicHomeAPI::perform_action`. -/
def perform_action_message : Actions → Message
  | .Status => .Control STATUS
  | .On => .Control ON
  | .Off => .Control OFF
  | .Chaos => .Function CHAOS
  | .Ambient => .Function AMBIENT
  | .Rainbow => .Function RAINBOW
  | .Red => .Color RED
  | .Green => .Color GREEN
  | .Blue => .Color BLUE
  | .Lime => .Color LIME
  | .Yellow => .Color YELLOW
  | .Pink => .Color PINK
  | .Cyan => .Color CYAN
  | .Purple => .Color PURPLE
  | .Orange => .Color ORANGE
  | .White => .Color WHITE

/-- `MagicHomeAPI::perform_action`: dispatch the action to its message and
hand it to `send_to_device`. -/
def perform_action (action : Actions) (buffer : Fin 14 → Nat) :
    List (List Nat) × Nat × Option Status :=
  send_to_device (perform_action_message action) buffer

/-- `MagicHomeAPI::set_rgb`.  Inputs are `isize`, modelled as `Int`; each
`!(0..=255).contains(&v)` check is `¬ (0 ≤ v ∧ v ≤ 255)`.  On success the
source sends `Message::Color((r as u8, g as u8, b as u8))` and discards the
send's result (`#[allow(unused_must_use)]`): `send_result` stands for the
value `self.send_to_device(message)` would return, and the definition
ignores it. -/
def set_rgb (r g b : Int) (send_result : Except String (Option Status)) :
    Except String Unit :=
  if ¬ (0 ≤ r ∧ r ≤ 255) then .error ("Invalid r value")
  else if ¬ (0 ≤ g ∧ g ≤ 255) then .error ("Invalid g value")
  else if ¬ (0 ≤ b ∧ b ≤ 255) then .error ("Invalid b value")
  else
    let _message := Message.Color (r.toNat, g.toNat, b.toNat)
    let _ := send_result
    .ok ()

/-- A concrete 14-byte status buffer used by witnesses:
power byte 35, mode byte 97 (static), color bytes r=10, b=20, g=30. -/
def staticBuf : Fin 14 → Nat := ![0, 0, 35, 97, 0, 0, 10, 20, 30, 0, 0, 0, 0, 0]

/-- A concrete 14-byte status buffer used by witnesses:
mode byte 49 (strobe) with raw speed byte 200 (greater than 100). -/
def strobeBuf : Fin 14 → Nat := ![0, 0, 35, 49, 0, 200, 1, 2, 3, 0, 0, 0, 0, 0]

/-- Folding `wrapping_add` over a list starting from an accumulator below 256
computes the sum modulo 256. -/
theorem foldl_wrapping_add (l : List Nat) (acc : Nat) (hacc : acc < 256) :
    l.foldl (fun checksum num => wrapping_add num checksum) acc
      = (l.sum + acc) % 256 := by
  induction l generalizing acc with
  | nil => simpa using (Nat.mod_eq_of_lt hacc).symm
  | cons x l ih =>
      rw [List.foldl_cons, ih (wrapping_add x acc) (Nat.mod_lt _ (by omega))]
      simp only [wrapping_add, List.sum_cons]
      omega

/-- C1: for every byte sequence, `calc_checksum` returns the sum of the bytes
modulo 256 (8-bit wraparound addition, total, hence never erroring on
overflow); concretely `calc_checksum [0x31,0xFF,0xFF,0x00,0xFF,0x00,0x0F]`
is `0x3D`. -/
theorem checksum_is_sum_mod_256 :
    (∀ bytes : List Nat, calc_checksum bytes = bytes.sum % 256) ∧
    calc_checksum [0x31, 0xff, 0xff, 0x00, 0xff, 0x00, 0x0f] = 0x3d := by
  refine ⟨fun bytes => ?_, by decide⟩
  rw [calc_checksum, foldl_wrapping_add bytes 0 (by omega), Nat.add_zero]

/-- C2: for all `r`, `g`, `b`, the frame for `Color (r,g,b)` is exactly the
8-byte sequence `[0x31, r, b, g, 0xFF, 0x00, 0x0F, checksum]`, with green and
blue swapped relative to logical RGB order; concretely `Color (255,0,170)`
encodes to `[0x31, 255, 170, 0, 0xFF, 0x00, 0x0F, 232]` where 232 is the
checksum of the first seven bytes. -/
theorem color_frame_layout :
    (∀ r g b : Nat,
        frame (.Color (r, g, b)) =
          [0x31, r, b, g, 0xff, 0x00, 0x0f,
            calc_checksum [0x31, r, b, g, 0xff, 0x00, 0x0f]] ∧
        (frame (.Color (r, g, b))).length = 8) ∧
    frame (.Color (255, 0, 170)) = [0x31, 255, 170, 0, 0xff, 0x00, 0x0f, 232] ∧
    232 = calc_checksum [0x31, 255, 170, 0, 0xff, 0x00, 0x0f] := by
  exact ⟨fun r g b => ⟨rfl, rfl⟩, by decide, by decide⟩

/-- C3: for every 14-byte status buffer (entries are bytes, i.e. at most 255):
power is true exactly when `buffer 2 = 35`; the color is
`(buffer 6, buffer 8, buffer 7)`; mode byte 97 gives static with no speed;
mode byte 49 gives strobe and mode byte 37 gives cycle, each with speed
`100 - buffer 5` in 8-bit arithmetic, i.e. `(100 + 256 - buffer 5) % 256`;
any other mode byte gives unknown with no speed, so decoding is total and
never fails. -/
theorem status_decode (buffer : Fin 14 → Nat) (hbytes : ∀ i, buffer i ≤ 255) :
    ((Status.fromBuffer buffer).power = true ↔ buffer 2 = 35) ∧
    (Status.fromBuffer buffer).color = (buffer 6, buffer 8, buffer 7) ∧
    (buffer 3 = 97 → (Status.fromBuffer buffer).mode = "static" ∧
      (Status.fromBuffer buffer).speed = none) ∧
    (buffer 3 = 49 → (Status.fromBuffer buffer).mode = "strobe" ∧
      (Status.fromBuffer buffer).speed = some ((100 + 256 - buffer 5) % 256)) ∧
    (buffer 3 = 37 → (Status.fromBuffer buffer).mode = "cycle" ∧
      (Status.fromBuffer buffer).speed = some ((100 + 256 - buffer 5) % 256)) ∧
    (buffer 3 ≠ 97 ∧ buffer 3 ≠ 49 ∧ buffer 3 ≠ 37 →
      (Status.fromBuffer buffer).mode = "unknown" ∧
      (Status.fromBuffer buffer).speed = none) := by
  have h5 : buffer 5 % 256 = buffer 5 :=
    Nat.mod_eq_of_lt (Nat.lt_of_le_of_lt (hbytes 5) (by omega))
  refine ⟨?_, rfl, fun h => ?_, fun h => ?_, fun h => ?_, fun h => ?_⟩
  · simp [Status.fromBuffer]
  · simp [Status.fromBuffer, h]
  · simp [Status.fromBuffer, h, u8_sub, h5]
  · simp [Status.fromBuffer, h, u8_sub, h5]
  · obtain ⟨h1, h2, h3⟩ := h
    simp [Status.fromBuffer, h1, h2, h3]

/-- Witness for C3 at the concrete buffer `staticBuf`. -/
theorem status_decode_witness :
    ((Status.fromBuffer staticBuf).power = true ↔ staticBuf 2 = 35) ∧
    (Status.fromBuffer staticBuf).color = (staticBuf 6, staticBuf 8, staticBuf 7) ∧
    ((Status.fromBuffer staticBuf).mode = "static" ∧
      (Status.fromBuffer staticBuf).speed = none) :=
  ⟨(status_decode staticBuf (by decide)).1,
   (status_decode staticBuf (by decide)).2.1,
   (status_decode staticBuf (by decide)).2.2.1 (by decide)⟩

/-- C4 counterexample: on input `(300, -1, -1)`, where `g` and `b` are both
out of range but `r` is too, `set_rgb` names `r`, not `g`. -/
theorem set_rgb_counterexample :
    set_rgb 300 (-1) (-1) (Except.ok none) = Except.error ("Invalid r value") ∧
    set_rgb 300 (-1) (-1) (Except.ok none) ≠ Except.error ("Invalid g value") := by
  refine ⟨by norm_num [set_rgb], ?_⟩
  rw [show set_rgb 300 (-1) (-1) (Except.ok none)
        = Except.error ("Invalid r value") from by norm_num [set_rgb]]
  intro h
  simpa using congrArg (fun e => e = Except.error ("Invalid r value")) h

/-- C4 (amended): `set_rgb` validates `r`, then `g`, then `b` against
`[0,255]` in that order and returns the first failure, naming the offending
component; when `r` is in range and `g` is out of range (in particular when
`g` and `b` are both out of range) the error names `g`; concretely
`set_rgb 255 (-1) 0` fails naming `g`, `set_rgb 255 0 300` fails naming `b`,
and `set_rgb 255 1 0` succeeds. -/
theorem set_rgb_validation_order :
    (∀ (r g b : Int) (res : Except String (Option Status)),
        ¬ (0 ≤ r ∧ r ≤ 255) →
        set_rgb r g b res = Except.error ("Invalid r value")) ∧
    (∀ (r g b : Int) (res : Except String (Option Status)),
        (0 ≤ r ∧ r ≤ 255) → ¬ (0 ≤ g ∧ g ≤ 255) →
        set_rgb r g b res = Except.error ("Invalid g value")) ∧
    (∀ (r g b : Int) (res : Except String (Option Status)),
        (0 ≤ r ∧ r ≤ 255) → (0 ≤ g ∧ g ≤ 255) → ¬ (0 ≤ b ∧ b ≤ 255) →
        set_rgb r g b res = Except.error ("Invalid b value")) ∧
    (∀ res, set_rgb 255 (-1) 0 res = Except.error ("Invalid g value")) ∧
    (∀ res, set_rgb 255 0 300 res = Except.error ("Invalid b value")) ∧
    (∀ res, set_rgb 255 1 0 res = Except.ok ()) := by
  refine ⟨fun r g b res hr => ?_, fun r g b res hr hg => ?_,
    fun r g b res hr hg hb => ?_, fun res => ?_, fun res => ?_, fun res => ?_⟩
  · simp [set_rgb, hr]
  · simp [set_rgb, hr, hg]
  · simp [set_rgb, hr, hg, hb]
  · norm_num [set_rgb]
  · norm_num [set_rgb]
  · norm_num [set_rgb]

/-- Witness for C4 (amended) at `r = 255`, `g = -3`, `b = -4`: both `g` and
`b` out of range, error names `g`. -/
theorem set_rgb_validation_order_witness :
    set_rgb 255 (-3) (-4) (Except.ok none) = Except.error ("Invalid g value") :=
  set_rgb_validation_order.2.1 255 (-3) (-4) (Except.ok none)
    (by norm_num) (by norm_num)

/-- C5: every Function (preset) send writes the power-on control frame
`[0x71, 0x23, 0x0F, checksum]` first, as a separate write, before the preset
frame `[0x61, preset, speed, 0x0F, checksum]`; concretely the chaos send,
`Function (49, 5)`, writes `[0x71,0x23,0x0F,0xA3]` and then
`[0x61,49,5,0x0F,0xA6]`. -/
theorem function_sends_power_on_first :
    (∀ (preset speed : Nat) (buffer : Fin 14 → Nat),
        (send_to_device (.Function (preset, speed)) buffer).1 =
          [[0x71, 0x23, 0x0f, calc_checksum [0x71, 0x23, 0x0f]],
           [0x61, preset, speed, 0x0f, calc_checksum [0x61, preset, speed, 0x0f]]]) ∧
    (∀ buffer : Fin 14 → Nat,
        (send_to_device (.Function CHAOS) buffer).1 =
          [[0x71, 0x23, 0x0f, 0xa3], [0x61, 49, 5, 0x0f, 0xa6]]) :=
  ⟨fun _ _ _ => rfl, fun _ => rfl⟩

/-- C6: `perform_action Actions.Status` writes the status control frame
`[0x81, 0x8A, 0x8B, checksum]`, reads exactly 14 bytes, and returns the
decoded status; every other action returns `none` and reads nothing. -/
theorem perform_status_roundtrip :
    (∀ buffer : Fin 14 → Nat,
        perform_action .Status buffer =
          ([[0x81, 0x8a, 0x8b, calc_checksum [0x81, 0x8a, 0x8b]]], 14,
            some (Status.fromBuffer buffer))) ∧
    (∀ (action : Actions) (buffer : Fin 14 → Nat), action ≠ .Status →
        (perform_action action buffer).2.2 = none ∧
        (perform_action action buffer).2.1 = 0) := by
  refine ⟨fun buffer => rfl, fun action buffer h => ?_⟩
  cases action <;> first | exact absurd rfl h | exact ⟨rfl, rfl⟩

/-- Witness for C6 at the action `Off` and the buffer `staticBuf`. -/
theorem perform_status_roundtrip_witness :
    (perform_action .Off staticBuf).2.2 = none ∧
    (perform_action .Off staticBuf).2.1 = 0 :=
  perform_status_roundtrip.2 .Off staticBuf (by decide)

/-- C7 counterexample: control frame length does not vary with the control
opcode: each of the three control opcodes (status, on, off) builds a 3-byte
payload and a 4-byte frame with checksum, so no control opcode yields the
claimed longer alternative. -/
theorem frame_length_counterexample :
    (message_bytes (.Control STATUS)).length = 3 ∧
    (message_bytes (.Control ON)).length = 3 ∧
    (message_bytes (.Control OFF)).length = 3 ∧
    (frame (.Control STATUS)).length = 4 ∧
    (frame (.Control ON)).length = 4 ∧
    (frame (.Control OFF)).length = 4 := by decide

/-- C7 (amended): frame length is determined entirely by the message kind and
carries no length prefix: before the checksum byte, 7 bytes for a Color
command, 4 for a Function command, and 3 for a Control command — identical
for every control opcode (8, 5 and 4 bytes respectively once the checksum is
appended). -/
theorem frame_length_by_kind :
    (∀ rgb : Rgb, (message_bytes (.Color rgb)).length = 7 ∧
        (frame (.Color rgb)).length = 8) ∧
    (∀ f : LedFunction, (message_bytes (.Function f)).length = 4 ∧
        (frame (.Function f)).length = 5) ∧
    (∀ c : Control, (message_bytes (.Control c)).length = 3 ∧
        (frame (.Control c)).length = 4) := by
  refine ⟨fun rgb => ?_, fun f => ?_, fun c => ?_⟩
  · obtain ⟨r, g, b⟩ := rgb
    exact ⟨rfl, rfl⟩
  · obtain ⟨preset, speed⟩ := f
    exact ⟨rfl, rfl⟩
  · obtain ⟨b1, b2, b3⟩ := c
    exact ⟨rfl, rfl⟩

/-- C8: the `perform_action` dispatch table maps each named action to exactly
its specified message: the three presets, the three controls, and the ten
named palette colors. -/
theorem perform_action_dispatch :
    perform_action_message .Chaos = .Function (49, 5) ∧
    perform_action_message .Ambient = .Function (37, 50) ∧
    perform_action_message .Rainbow = .Function (37, 1) ∧
    perform_action_message .Status = .Control (0x81, 0x8a, 0x8b) ∧
    perform_action_message .On = .Control (0x71, 0x23, 0x0f) ∧
    perform_action_message .Off = .Control (0x71, 0x24, 0x0f) ∧
    perform_action_message .Red = .Color (255, 0, 0) ∧
    perform_action_message .Green = .Color (0, 255, 0) ∧
    perform_action_message .Blue = .Color (0, 0, 255) ∧
    perform_action_message .Lime = .Color (255, 255, 0) ∧
    perform_action_message .Yellow = .Color (255, 110, 0) ∧
    perform_action_message .Pink = .Color (255, 0, 170) ∧
    perform_action_message .Cyan = .Color (0, 255, 255) ∧
    perform_action_message .Purple = .Color (170, 0, 255) ∧
    perform_action_message .Orange = .Color (255, 24, 0) ∧
    perform_action_message .White = .Color (255, 255, 255) := by decide

/-- C9: for every in-range `r`, `g`, `b`, `set_rgb` returns `ok ()` whatever
the result of the underlying frame send: that result is discarded, so an
I/O failure during the write never surfaces to the caller. -/
theorem set_rgb_ignores_send_failure (r g b : Int)
    (hr : 0 ≤ r ∧ r ≤ 255) (hg : 0 ≤ g ∧ g ≤ 255) (hb : 0 ≤ b ∧ b ≤ 255)
    (send_result : Except String (Option Status)) :
    set_rgb r g b send_result = Except.ok () := by
  simp [set_rgb, hr, hg, hb]

/-- Witness for C9 at `(1, 2, 3)` with a failing send. -/
theorem set_rgb_ignores_send_failure_witness :
    set_rgb 1 2 3 (Except.error ("connection reset")) = Except.ok () :=
  set_rgb_ignores_send_failure 1 2 3 (by norm_num) (by norm_num) (by norm_num)
    (Except.error ("connection reset"))

/-- C10: when the mode byte `buffer 3` is 49 (strobe) or 37 (cycle) and the
raw speed byte `buffer 5` exceeds 100, the decoded speed is the 8-bit
wrapped value `(100 - buffer 5) mod 256 = 356 - buffer 5`, which exceeds
100 and is therefore not a truncated nonnegative difference. -/
theorem status_speed_wraps (buffer : Fin 14 → Nat)
    (h5 : buffer 5 ≤ 255) (hgt : 100 < buffer 5)
    (hmode : buffer 3 = 49 ∨ buffer 3 = 37) :
    (Status.fromBuffer buffer).speed = some ((100 + 256 - buffer 5) % 256) ∧
    (100 + 256 - buffer 5) % 256 = 356 - buffer 5 ∧
    100 < 356 - buffer 5 := by
  have h5m : buffer 5 % 256 = buffer 5 := Nat.mod_eq_of_lt (by omega)
  refine ⟨?_, by omega, by omega⟩
  rcases hmode with h | h
  · simp [Status.fromBuffer, h, u8_sub, h5m]
  · simp [Status.fromBuffer, h, u8_sub, h5m]

/-- Witness for C10 at `strobeBuf` (mode byte 49, raw speed byte 200):
the decoded speed is `some 156`. -/
theorem status_speed_wraps_witness :
    (Status.fromBuffer strobeBuf).speed = some ((100 + 256 - strobeBuf 5) % 256) ∧
    (100 + 256 - strobeBuf 5) % 256 = 356 - strobeBuf 5 ∧
    100 < 356 - strobeBuf 5 :=
  status_speed_wraps strobeBuf (by decide) (by decide) (Or.inl (by decide))
